import Mathlib

/-!
Shallow embedding of `src/main.go` of martinlindhe/fvpatcher.

Modelling conventions:
* The filesystem is a finite map from path strings to file nodes (content
  bytes plus a last-modified time in seconds).  `filepath.Join` is modelled
  as concatenation with a `/` separator; path cleaning is irrelevant to the
  claims, which use paths only as map keys.
* Bytes are `List Nat`.
* The MD5 digest is modelled as an abstract deterministic function
  `Env.digest : Bytes → String` (the spec's Content Hasher collaborator);
  every claim depends only on digest equality, never on concrete MD5 values.
* I/O effects that can fail in Go (`http` fetch, `os.Create`/`Write`,
  `os.Remove`, reading a file for hashing, `os.MkdirAll`,
  `yaml.Unmarshal`) are driven by oracles in `Env`, so both the success
  and the failure paths of the source are represented.
* `log.Fatal` (process termination) is modelled as `Except.error`
  propagating out of the whole pass.
-/

namespace FvPatcher

abbrev Bytes := List Nat

/-- A file on disk: its content bytes and its modification time (seconds). -/
structure FNode where
  data : Bytes
  mtime : Int
  deriving DecidableEq

/-- The filesystem: an association list from absolute path to file node. -/
structure FS where
  files : List (String × FNode)
  deriving DecidableEq

def FS.stat (fs : FS) (path : String) : Option FNode :=
  (fs.files.find? (fun kv => kv.1 == path)).map Prod.snd

def FS.readBytes (fs : FS) (path : String) : Option Bytes :=
  (FS.stat fs path).map FNode.data

/-- Store `data` at `path` with mtime `t`, replacing any previous node. -/
def FS.writeBytes (fs : FS) (path : String) (data : Bytes) (t : Int) : FS :=
  ⟨(path, ⟨data, t⟩) :: fs.files.filter (fun kv => kv.1 != path)⟩

def FS.remove (fs : FS) (path : String) : FS :=
  ⟨fs.files.filter (fun kv => kv.1 != path)⟩

/-- `fileOrDirExists` from main.go: `os.Stat` succeeds. -/
def fileOrDirExists (fs : FS) (path : String) : Bool :=
  (FS.stat fs path).isSome

/-- `filepath.Join rootPath name`, modelled as separator concatenation. -/
def joinPath (root name : String) : String := root ++ "/" ++ name

/-- `fileEntry` from main.go (yaml entry: Name, MD5, Date, Size). -/
structure fileEntry where
  name : String
  md5 : String
  date : String
  size : Nat
  deriving DecidableEq

/-- `fileListYaml` from main.go (Version, Deletes, DownloadPrefix, Downloads). -/
structure fileListYaml where
  version : String
  deletes : List fileEntry
  downloadPrefix : String
  downloads : List fileEntry
  deriving DecidableEq

/-- The global `arg` struct parsed by kong (main.go lines 18-23). -/
structure Args where
  everquestRoot : String
  verbose : Bool
  expansion : String
  client : String
  deriving DecidableEq

/-- Outcome of `client.Get(url)`: the HTTP status code and the outcome of
`io.ReadAll(response.Body)`.  Go's `http.Client.Get` returns a non-nil
error only for transport-level failures, never for a non-2xx status. -/
structure HttpResponse where
  statusCode : Nat
  bodyRead : Except String Bytes

/-- The ambient world: I/O oracles and collaborators consumed by the core. -/
structure Env where
  /-- Content Hasher: hex digest of a byte sequence (`md5.Sum`). -/
  digest : Bytes → String
  /-- Remote Fetcher: result of `fetchUrl` for each URL. -/
  fetch : String → Except String Bytes
  /-- Whether `os.Create` + `Write` succeeds for a path. -/
  writeOk : String → Bool
  /-- Whether `os.Remove` succeeds for a path. -/
  removeOk : String → Bool
  /-- Whether opening/reading an existing file for hashing succeeds. -/
  readHashOk : String → Bool
  /-- Whether `os.MkdirAll(getSettingsRoot(), 0777)` succeeds. -/
  mkdirOk : Bool
  /-- `yaml.Unmarshal` on manifest bytes. -/
  parse : Bytes → Except String fileListYaml
  /-- `time.Now()` in seconds. -/
  now : Int
  /-- `os.UserHomeDir()`. -/
  homeDir : String
  /-- The process working directory (relative paths resolve against it). -/
  cwd : String

/-- `md5OfData` from main.go. -/
def md5OfData (env : Env) (data : Bytes) : String := env.digest data

/-- `md5OfFile` from main.go: open the file and stream it through the
digest; fails if the file cannot be opened or read. -/
def md5OfFile (env : Env) (fs : FS) (fileName : String) : Except String String :=
  match FS.readBytes fs fileName with
  | none => .error ("open " ++ fileName ++ ": no such file or directory")
  | some data =>
      if env.readHashOk fileName then .ok (env.digest data)
      else .error ("read " ++ fileName ++ ": input/output error")

/-- `writeFile` from main.go: `os.Create` then `Write`; on success the file
holds exactly `data`, overwriting any prior content. -/
def writeFile (env : Env) (fs : FS) (fileName : String) (data : Bytes) :
    Except String FS :=
  if env.writeOk fileName then .ok (FS.writeBytes fs fileName data env.now)
  else .error ("create " ++ fileName ++ ": permission denied")

/-- `fetchUrl` from main.go: a single `client.Get(url)`; a transport error
is returned as-is, otherwise the body is fully buffered by `io.ReadAll`
and returned.  The HTTP status code is never inspected. -/
def fetchUrl (url : String) (get : String → Except String HttpResponse) :
    Except String Bytes :=
  match get url with
  | .error e => .error e
  | .ok response => response.bodyRead

def secondsPerDay : Int := 86400

/-- `isCachedFileTooOld` from main.go: stat failure counts as too old;
otherwise the mtime is compared against `time.Now().AddDate(0,0,-maxDays)`. -/
def isCachedFileTooOld (env : Env) (fs : FS) (fileName : String) (maxDays : Int) :
    Bool :=
  match FS.stat fs fileName with
  | none => true
  | some info =>
      let maxAge := env.now - maxDays * secondsPerDay
      decide (info.mtime < maxAge)

/-- `getSettingsRoot` from main.go. -/
def getSettingsRoot (env : Env) : String :=
  joinPath env.homeDir ".config/fvpatcher"

/-- The cache file name computed in `DownloadFileList` (main.go line 101). -/
def filelistNameOf (args : Args) : String :=
  "filelist_" ++ args.client ++ "." ++ args.expansion ++ ".yml"

/-- The cache file path computed in `DownloadFileList` (main.go line 102). -/
def filelistFullPathOf (env : Env) (args : Args) : String :=
  joinPath (getSettingsRoot env) (filelistNameOf args)

/-- The manifest URL computed in `DownloadFileList` (main.go line 103). -/
def filelistURLOf (args : Args) : String :=
  "https://" ++ args.expansion ++ ".fvproject.com/" ++ args.client ++
    "/filelist_" ++ args.client ++ ".yml"

/-- Lines 121-128 of main.go: `os.ReadFile(filelistName)` — note the
RELATIVE path, which resolves against the working directory — followed by
`yaml.Unmarshal`. -/
def readAndParse (env : Env) (fs : FS) (filelistName : String) :
    Except String (FS × fileListYaml) :=
  match FS.readBytes fs (joinPath env.cwd filelistName) with
  | none => .error ("open " ++ filelistName ++ ": no such file or directory")
  | some data =>
      match env.parse data with
      | .error e => .error e
      | .ok list => .ok (fs, list)

/-- `DownloadFileList` from main.go.  The first component of the result is
the list of URLs actually fetched over the network (the observable trace);
the second is the Go return value.  The parameters `clientName` and
`expansion` are declared but, exactly as in the source, never used: the
body reads the globals `args.client` / `args.expansion`. -/
def DownloadFileList (env : Env) (fs : FS) (clientName expansion : String)
    (args : Args) : List String × Except String (FS × fileListYaml) :=
  let filelistName := filelistNameOf args
  let filelistFullPath := filelistFullPathOf env args
  let filelistURL := filelistURLOf args
  if !(fileOrDirExists fs filelistFullPath) ||
      isCachedFileTooOld env fs filelistFullPath 7 then
    match env.fetch filelistURL with
    | .error e => ([filelistURL], .error e)
    | .ok data =>
        if env.mkdirOk then
          match writeFile env fs filelistFullPath data with
          | .error e => ([filelistURL], .error e)
          | .ok fs' => ([filelistURL], readAndParse env fs' filelistName)
        else ([filelistURL], .error ("mkdir " ++ getSettingsRoot env ++ ": permission denied"))
  else
    ([], readAndParse env fs filelistName)

/-- One iteration of the delete loop (main.go lines 41-52), acting on the
filesystem and the `deleteCount`. -/
def handleDeleteStep (env : Env) (rootPath : String) (st : FS × Nat)
    (del : fileEntry) : FS × Nat :=
  let fullPath := joinPath rootPath del.name
  if fileOrDirExists st.1 fullPath then
    if env.removeOk fullPath then (FS.remove st.1 fullPath, st.2 + 1)
    else st
  else st

def deleteLoop (env : Env) (rootPath : String) :
    FS × Nat → List fileEntry → FS × Nat
  | st, [] => st
  | st, del :: rest =>
      deleteLoop env rootPath (handleDeleteStep env rootPath st del) rest

/-- `HandleDeleteRequests` from main.go: returns the filesystem after the
pass and the reported `deleteCount`. -/
def HandleDeleteRequests (env : Env) (rootPath : String) (fs : FS)
    (list : fileListYaml) : FS × Nat :=
  deleteLoop env rootPath (fs, 0) list.deletes

/-- State threaded through the download loop: the filesystem, the
`downloadCount`, and the trace of URLs fetched over the network. -/
structure DlState where
  fs : FS
  downloadCount : Nat
  fetched : List String
  deriving DecidableEq

/-- Lines 61-77 of main.go: decide `needDownload` for one entry.
`.error` means the local hash read failed (the source prints the error and
does `continue`). -/
def needDownloadCheck (env : Env) (fs : FS) (fullPath : String)
    (dl : fileEntry) : Except String Bool :=
  if fileOrDirExists fs fullPath then
    match md5OfFile env fs fullPath with
    | .error e => .error e
    | .ok actualMD5 => .ok (decide (actualMD5 ≠ dl.md5))
  else
    .ok true

/-- One iteration of the download loop (main.go lines 59-94).
`Except.error` is `log.Fatal`: it aborts the entire run. -/
def handleDownloadStep (env : Env) (list : fileListYaml) (rootPath : String)
    (st : DlState) (dl : fileEntry) : Except String DlState :=
  let fullPath := joinPath rootPath dl.name
  match needDownloadCheck env st.fs fullPath dl with
  | .error _ => .ok st
  | .ok false => .ok st
  | .ok true =>
      let fileURL := list.downloadPrefix ++ dl.name
      match env.fetch fileURL with
      | .error e => .error e
      | .ok data =>
          if md5OfData env data ≠ dl.md5 then
            match writeFile env st.fs fullPath data with
            | .error _ => .ok ⟨st.fs, st.downloadCount + 1, st.fetched ++ [fileURL]⟩
            | .ok fs' => .ok ⟨fs', st.downloadCount + 1, st.fetched ++ [fileURL]⟩
          else
            .ok ⟨st.fs, st.downloadCount, st.fetched ++ [fileURL]⟩

def downloadLoop (env : Env) (list : fileListYaml) (rootPath : String) :
    DlState → List fileEntry → Except String DlState
  | st, [] => .ok st
  | st, dl :: rest =>
      match handleDownloadStep env list rootPath st dl with
      | .error e => .error e
      | .ok st' => downloadLoop env list rootPath st' rest

/-- `HandleDownloadRequests` from main.go: runs the download pass over all
`downloads` entries, starting from `downloadCount = 0` and an empty fetch
trace. -/
def HandleDownloadRequests (env : Env) (rootPath : String) (fs : FS)
    (list : fileListYaml) : Except String DlState :=
  downloadLoop env list rootPath ⟨fs, 0, []⟩ list.downloads

/-! ### Helper lemmas -/

theorem FS.readBytes_writeBytes_self (fs : FS) (p : String) (d : Bytes) (t : Int) :
    FS.readBytes (FS.writeBytes fs p d t) p = some d := by
  simp [FS.readBytes, FS.stat, FS.writeBytes, List.find?]

theorem needDownloadCheck_uptodate (env : Env) (fs : FS) (p : String)
    (dl : fileEntry) (d0 : Bytes)
    (hread : FS.readBytes fs p = some d0)
    (hhash : env.readHashOk p = true)
    (hdig : env.digest d0 = dl.md5) :
    needDownloadCheck env fs p dl = .ok false := by
  have hex : fileOrDirExists fs p = true := by
    unfold FS.readBytes at hread
    rcases hstat : FS.stat fs p with _ | node
    · rw [hstat] at hread; simp at hread
    · simp [fileOrDirExists, hstat]
  unfold needDownloadCheck md5OfFile
  rw [hex]
  simp [hread, hhash, hdig]

theorem handleDownloadStep_of_check_false (env : Env) (list : fileListYaml)
    (rootPath : String) (st : DlState) (dl : fileEntry)
    (h : needDownloadCheck env st.fs (joinPath rootPath dl.name) dl = .ok false) :
    handleDownloadStep env list rootPath st dl = .ok st := by
  simp only [handleDownloadStep]
  rw [h]

/-! ### Claims -/

/-- Claim C1: in the download pass, for every entry that needed a fetch, if
the digest of the fetched bytes equals the entry's `contentHash` (`MD5`),
then the reconciler does not write to `fullPath` (the filesystem is
unchanged) and does not increment the download counter. -/
theorem downloadStep_verified_fetch_no_write (env : Env) (list : fileListYaml)
    (rootPath : String) (st : DlState) (dl : fileEntry) (data : Bytes)
    (hneed : needDownloadCheck env st.fs (joinPath rootPath dl.name) dl = .ok true)
    (hfetch : env.fetch (list.downloadPrefix ++ dl.name) = .ok data)
    (hdig : md5OfData env data = dl.md5) :
    handleDownloadStep env list rootPath st dl =
      .ok ⟨st.fs, st.downloadCount, st.fetched ++ [list.downloadPrefix ++ dl.name]⟩ := by
  simp only [handleDownloadStep, hneed, hfetch]
  rw [if_neg (fun hcon => hcon hdig)]

/-- Witness for C1: one entry, local file absent, fetched bytes verify. -/
theorem downloadStep_verified_fetch_no_write_witness :
    handleDownloadStep
      ⟨fun _ => "aa", fun _ => .ok [5], fun _ => true, fun _ => true,
       fun _ => true, true, fun _ => .error "unused", 0, "/home/u", "/tmp"⟩
      ⟨"1", [], "http://h/", [⟨"a", "aa", "", 0⟩]⟩ "/r" ⟨⟨[]⟩, 0, []⟩
      ⟨"a", "aa", "", 0⟩ =
      .ok ⟨⟨[]⟩, 0, [] ++ ["http://h/" ++ "a"]⟩ :=
  downloadStep_verified_fetch_no_write
    ⟨fun _ => "aa", fun _ => .ok [5], fun _ => true, fun _ => true,
     fun _ => true, true, fun _ => .error "unused", 0, "/home/u", "/tmp"⟩
    ⟨"1", [], "http://h/", [⟨"a", "aa", "", 0⟩]⟩ "/r" ⟨⟨[]⟩, 0, []⟩
    ⟨"a", "aa", "", 0⟩ [5] (by rfl) (by rfl) (by rfl)

/-- Claim C2: in the download pass, for every entry that needed a fetch, if
the digest of the fetched bytes does NOT equal the entry's `contentHash`,
the reconciler writes the fetched bytes verbatim to `fullPath` (overwriting
any prior content) and increments the download counter (assuming the disk
write itself succeeds). -/
theorem downloadStep_mismatch_writes_and_counts (env : Env)
    (list : fileListYaml) (rootPath : String) (st : DlState) (dl : fileEntry)
    (data : Bytes)
    (hneed : needDownloadCheck env st.fs (joinPath rootPath dl.name) dl = .ok true)
    (hfetch : env.fetch (list.downloadPrefix ++ dl.name) = .ok data)
    (hdig : md5OfData env data ≠ dl.md5)
    (hwrite : env.writeOk (joinPath rootPath dl.name) = true) :
    handleDownloadStep env list rootPath st dl =
      .ok ⟨FS.writeBytes st.fs (joinPath rootPath dl.name) data env.now,
           st.downloadCount + 1, st.fetched ++ [list.downloadPrefix ++ dl.name]⟩ ∧
    FS.readBytes (FS.writeBytes st.fs (joinPath rootPath dl.name) data env.now)
      (joinPath rootPath dl.name) = some data := by
  constructor
  · simp only [handleDownloadStep, hneed, hfetch]
    rw [if_pos hdig]
    unfold writeFile
    rw [if_pos hwrite]
  · exact FS.readBytes_writeBytes_self st.fs (joinPath rootPath dl.name) data env.now

/-- Witness for C2: one entry, local file absent, fetched bytes mismatch,
write succeeds: the file receives the fetched bytes and the counter
becomes 1. -/
theorem downloadStep_mismatch_writes_and_counts_witness :
    handleDownloadStep
      ⟨fun _ => "zz", fun _ => .ok [3], fun _ => true, fun _ => true,
       fun _ => true, true, fun _ => .error "unused", 0, "/home/u", "/tmp"⟩
      ⟨"1", [], "http://h/", [⟨"a", "aa", "", 0⟩]⟩ "/r" ⟨⟨[]⟩, 0, []⟩
      ⟨"a", "aa", "", 0⟩ =
      .ok ⟨FS.writeBytes ⟨[]⟩ ("/r" ++ "/" ++ "a") [3] 0, 0 + 1,
           [] ++ ["http://h/" ++ "a"]⟩ ∧
    FS.readBytes (FS.writeBytes ⟨[]⟩ ("/r" ++ "/" ++ "a") [3] 0)
      ("/r" ++ "/" ++ "a") = some [3] :=
  downloadStep_mismatch_writes_and_counts
    ⟨fun _ => "zz", fun _ => .ok [3], fun _ => true, fun _ => true,
     fun _ => true, true, fun _ => .error "unused", 0, "/home/u", "/tmp"⟩
    ⟨"1", [], "http://h/", [⟨"a", "aa", "", 0⟩]⟩ "/r" ⟨⟨[]⟩, 0, []⟩
    ⟨"a", "aa", "", 0⟩ [3] (by rfl) (by rfl) (by decide) (by rfl)

/-- Claim C3 (code bug): `DownloadFileList` persists the freshly fetched
manifest bytes to `filelistFullPath` (the cache path under the settings
root) but then calls `os.ReadFile(filelistName)` with the bare RELATIVE
file name, which resolves against the process working directory.  At this
concrete input the fetch succeeds, the bytes land at the cache path (second
conjunct), the parse oracle would accept anything, and resolution still
fails with a file-not-found error on the relative name. -/
theorem downloadFileList_reads_relative_path_bug :
    DownloadFileList
        ⟨fun _ => "d", fun _ => .ok [7, 7], fun _ => true, fun _ => true,
         fun _ => true, true, fun _ => .ok ⟨"v", [], "", []⟩, 0, "/home/u", "/tmp/w"⟩
        ⟨[]⟩ "rof" "original" ⟨"/eq", false, "original", "rof"⟩ =
      (["https://original.fvproject.com/rof/filelist_rof.yml"],
       .error "open filelist_rof.original.yml: no such file or directory") ∧
    FS.readBytes
        (FS.writeBytes ⟨[]⟩
          (filelistFullPathOf
            ⟨fun _ => "d", fun _ => .ok [7, 7], fun _ => true, fun _ => true,
             fun _ => true, true, fun _ => .ok ⟨"v", [], "", []⟩, 0, "/home/u", "/tmp/w"⟩
            ⟨"/eq", false, "original", "rof"⟩) [7, 7] 0)
        "/home/u/.config/fvpatcher/filelist_rof.original.yml" = some [7, 7] := by
  constructor
  · rfl
  · rfl

/-- Claim C4 counterexample: a response with HTTP status 404 whose body
reads as `[1, 2]` makes `fetchUrl` return `.ok [1, 2]` rather than an
error — the status code is never inspected, contradicting the claim that
any non-success response is surfaced as an error. -/
theorem fetchUrl_status404_returns_body :
    fetchUrl "https://example.com/missing"
        (fun _ => .ok (⟨404, .ok [1, 2]⟩ : HttpResponse)) = .ok [1, 2] ∧
    (⟨404, .ok [1, 2]⟩ : HttpResponse).statusCode = 404 := by
  constructor
  · rfl
  · rfl

/-- Claim C4 amended: `fetchUrl` surfaces a transport error as an error;
when the transport delivers a response, it returns exactly the outcome of
buffering the body — the HTTP status code has no influence on the result
(two responses with equal body reads give equal results), so a non-success
status such as 404 or 500 is NOT turned into an error. -/
theorem fetchUrl_ignores_status (url : String)
    (getA getB : String → Except String HttpResponse) (rA rB : HttpResponse)
    (hA : getA url = .ok rA) (hB : getB url = .ok rB)
    (hbody : rA.bodyRead = rB.bodyRead) :
    fetchUrl url getA = rA.bodyRead ∧
    fetchUrl url getA = fetchUrl url getB ∧
    (∀ (g : String → Except String HttpResponse) (e : String),
      g url = .error e → fetchUrl url g = .error e) := by
  refine ⟨?_, ?_, ?_⟩
  · simp [fetchUrl, hA]
  · simp [fetchUrl, hA, hB, hbody]
  · intro g e hg
    simp [fetchUrl, hg]

/-- Witness for the amended C4: a 404 and a 200 response with the same
body give the same successful result. -/
theorem fetchUrl_ignores_status_witness :
    fetchUrl "https://example.com/x"
        (fun _ => .ok (⟨404, .ok [9]⟩ : HttpResponse)) =
      (⟨404, .ok [9]⟩ : HttpResponse).bodyRead ∧
    fetchUrl "https://example.com/x"
        (fun _ => .ok (⟨404, .ok [9]⟩ : HttpResponse)) =
      fetchUrl "https://example.com/x"
        (fun _ => .ok (⟨200, .ok [9]⟩ : HttpResponse)) ∧
    (∀ (g : String → Except String HttpResponse) (e : String),
      g "https://example.com/x" = .error e →
      fetchUrl "https://example.com/x" g = .error e) :=
  fetchUrl_ignores_status "https://example.com/x"
    (fun _ => .ok (⟨404, .ok [9]⟩ : HttpResponse))
    (fun _ => .ok (⟨200, .ok [9]⟩ : HttpResponse))
    ⟨404, .ok [9]⟩ ⟨200, .ok [9]⟩ (by rfl) (by rfl) (by rfl)

/-- Claim C5 counterexample: one entry whose local file is absent, fetched
bytes mismatch the expected hash, and the disk write fails (`writeOk`
always false).  The pass reports `downloadCount = 1` although zero entries
were successfully written (the filesystem is unchanged and the target file
still does not exist) — so the reported counter does not equal the number
of successfully written entries. -/
theorem downloadCount_counts_failed_write :
    HandleDownloadRequests
        ⟨fun _ => "xx", fun _ => .ok [9], fun _ => false, fun _ => true,
         fun _ => true, true, fun _ => .error "unused", 0, "/home/u", "/tmp"⟩
        "/r" ⟨[]⟩ ⟨"1", [], "http://h/", [⟨"b.bin", "yy", "", 0⟩]⟩ =
      .ok ⟨⟨[]⟩, 1, ["http://h/b.bin"]⟩ ∧
    FS.readBytes (⟨[]⟩ : FS) "/r/b.bin" = none := by
  constructor
  · rfl
  · rfl

/-- Claim C5 amended: the reported download counter counts every entry
whose fetched bytes mismatched the expected hash (i.e. every entry for
which a write was attempted), whether or not the disk write succeeded:
the counter is incremented with no hypothesis on `writeOk`. -/
theorem downloadStep_counts_attempted_writes (env : Env)
    (list : fileListYaml) (rootPath : String) (st : DlState) (dl : fileEntry)
    (data : Bytes)
    (hneed : needDownloadCheck env st.fs (joinPath rootPath dl.name) dl = .ok true)
    (hfetch : env.fetch (list.downloadPrefix ++ dl.name) = .ok data)
    (hdig : md5OfData env data ≠ dl.md5) :
    ∃ st', handleDownloadStep env list rootPath st dl = .ok st' ∧
      st'.downloadCount = st.downloadCount + 1 := by
  simp only [handleDownloadStep, hneed, hfetch]
  rw [if_pos hdig]
  rcases hw : writeFile env st.fs (joinPath rootPath dl.name) data with e | fs'
  · exact ⟨_, rfl, rfl⟩
  · exact ⟨_, rfl, rfl⟩

/-- Witness for the amended C5: with a failing write, the counter still
becomes 1. -/
theorem downloadStep_counts_attempted_writes_witness :
    ∃ st', handleDownloadStep
        ⟨fun _ => "xx", fun _ => .ok [9], fun _ => false, fun _ => true,
         fun _ => true, true, fun _ => .error "unused", 0, "/home/u", "/tmp"⟩
        ⟨"1", [], "http://h/", [⟨"b.bin", "yy", "", 0⟩]⟩ "/r" ⟨⟨[]⟩, 0, []⟩
        ⟨"b.bin", "yy", "", 0⟩ = .ok st' ∧
      st'.downloadCount = 0 + 1 :=
  downloadStep_counts_attempted_writes
    ⟨fun _ => "xx", fun _ => .ok [9], fun _ => false, fun _ => true,
     fun _ => true, true, fun _ => .error "unused", 0, "/home/u", "/tmp"⟩
    ⟨"1", [], "http://h/", [⟨"b.bin", "yy", "", 0⟩]⟩ "/r" ⟨⟨[]⟩, 0, []⟩
    ⟨"b.bin", "yy", "", 0⟩ [9] (by rfl) (by rfl) (by decide)

theorem needDownloadCheck_absent (env : Env) (fs : FS) (p : String)
    (dl : fileEntry) (h : fileOrDirExists fs p = false) :
    needDownloadCheck env fs p dl = .ok true := by
  unfold needDownloadCheck
  rw [h]
  simp

/-- Claim C6 counterexample: empty `deletes`, one `downloads` entry whose
local file does not exist, remote bytes whose digest equals the declared
hash.  The claim says the file at `fullPath` is written with those bytes;
in fact the pass performs the fetch and then, because the digest verifies,
skips the write entirely: the filesystem is returned unchanged and the
file at `fullPath` still does not exist (download count 0, attempted 1,
as the claim says). -/
theorem scenarioA_file_not_written :
    HandleDownloadRequests
        ⟨fun _ => "aa", fun _ => .ok [1, 2], fun _ => true, fun _ => true,
         fun _ => true, true, fun _ => .error "unused", 0, "/home/u", "/tmp"⟩
        "/root" ⟨[]⟩ ⟨"1", [], "http://p/", [⟨"a.txt", "aa", "", 0⟩]⟩ =
      .ok ⟨⟨[]⟩, 0, ["http://p/a.txt"]⟩ ∧
    FS.readBytes (⟨[]⟩ : FS) "/root/a.txt" = none ∧
    (⟨"1", [], "http://p/", [⟨"a.txt", "aa", "", 0⟩]⟩ : fileListYaml).downloads.length = 1 := by
  refine ⟨?_, ?_, ?_⟩ <;> rfl

/-- Claim C6 amended: end-to-end with empty `deletes` and one `downloads`
entry whose local file does not exist, when the fetched bytes' digest
equals the declared hash the delete pass reports 0 deletions, the download
pass fetches once (attempted = 1) but does NOT write the file — the
filesystem is unchanged, so the path stays absent — and reports download
count 0. -/
theorem scenarioA_amended (env : Env) (rootPath : String) (fs : FS)
    (data : Bytes) (entry : fileEntry) (list : fileListYaml)
    (hdeletes : list.deletes = [])
    (hdownloads : list.downloads = [entry])
    (habsent : fileOrDirExists fs (joinPath rootPath entry.name) = false)
    (hfetch : env.fetch (list.downloadPrefix ++ entry.name) = .ok data)
    (hdig : md5OfData env data = entry.md5) :
    HandleDeleteRequests env rootPath fs list = (fs, 0) ∧
    HandleDownloadRequests env rootPath fs list =
      .ok ⟨fs, 0, [list.downloadPrefix ++ entry.name]⟩ ∧
    list.downloads.length = 1 := by
  have hneed : needDownloadCheck env fs (joinPath rootPath entry.name) entry = .ok true :=
    needDownloadCheck_absent env fs _ entry habsent
  refine ⟨?_, ?_, ?_⟩
  · unfold HandleDeleteRequests
    rw [hdeletes]
    rfl
  · unfold HandleDownloadRequests
    rw [hdownloads]
    have hstep : handleDownloadStep env list rootPath ⟨fs, 0, []⟩ entry =
        .ok ⟨fs, 0, [] ++ [list.downloadPrefix ++ entry.name]⟩ := by
      simp only [handleDownloadStep, hneed, hfetch]
      rw [if_neg (fun hcon => hcon hdig)]
    simp only [downloadLoop, hstep]
    rfl
  · rw [hdownloads]
    rfl

/-- Witness for the amended C6 at a concrete input. -/
theorem scenarioA_amended_witness :
    HandleDeleteRequests
        ⟨fun _ => "bb", fun _ => .ok [4], fun _ => true, fun _ => true,
         fun _ => true, true, fun _ => .error "unused", 0, "/home/u", "/tmp"⟩
        "/root" ⟨[]⟩ ⟨"1", [], "http://p/", [⟨"c.txt", "bb", "", 0⟩]⟩ = (⟨[]⟩, 0) ∧
    HandleDownloadRequests
        ⟨fun _ => "bb", fun _ => .ok [4], fun _ => true, fun _ => true,
         fun _ => true, true, fun _ => .error "unused", 0, "/home/u", "/tmp"⟩
        "/root" ⟨[]⟩ ⟨"1", [], "http://p/", [⟨"c.txt", "bb", "", 0⟩]⟩ =
      .ok ⟨⟨[]⟩, 0, ["http://p/" ++ "c.txt"]⟩ ∧
    (⟨"1", [], "http://p/", [⟨"c.txt", "bb", "", 0⟩]⟩ : fileListYaml).downloads.length = 1 :=
  scenarioA_amended
    ⟨fun _ => "bb", fun _ => .ok [4], fun _ => true, fun _ => true,
     fun _ => true, true, fun _ => .error "unused", 0, "/home/u", "/tmp"⟩
    "/root" ⟨[]⟩ [4] ⟨"c.txt", "bb", "", 0⟩
    ⟨"1", [], "http://p/", [⟨"c.txt", "bb", "", 0⟩]⟩
    (by rfl) (by rfl) (by rfl) (by rfl) (by rfl)

theorem DownloadFileList_trace (env : Env) (fs : FS) (c e : String)
    (args : Args) :
    (DownloadFileList env fs c e args).1 =
      if !(fileOrDirExists fs (filelistFullPathOf env args)) ||
          isCachedFileTooOld env fs (filelistFullPathOf env args) 7
      then [filelistURLOf args] else [] := by
  simp only [DownloadFileList]
  split
  · split
    · rfl
    · split
      · split
        · rfl
        · rfl
      · rfl
  · rfl

/-- Claim C7: manifest-cache resolution performs a network fetch if and
only if the cache file does not exist or its last-modified time is older
than 7 days (`time.Now().AddDate(0,0,-7)`); in particular, with a cache
file younger than 7 days no network request happens (the fetch trace is
empty). -/
theorem downloadFileList_fetch_iff_stale (env : Env) (fs : FS)
    (c e : String) (args : Args) :
    (DownloadFileList env fs c e args).1 ≠ [] ↔
      FS.stat fs (filelistFullPathOf env args) = none ∨
      ∃ info, FS.stat fs (filelistFullPathOf env args) = some info ∧
        info.mtime < env.now - 7 * secondsPerDay := by
  rw [DownloadFileList_trace]
  rcases hs : FS.stat fs (filelistFullPathOf env args) with _ | info
  · simp [fileOrDirExists, isCachedFileTooOld, hs]
  · simp [fileOrDirExists, isCachedFileTooOld, hs]
    omega

/-- Claim C8: an up-to-date entry (the local file exists, is readable, and
its digest equals the entry's hash) is a no-op: the step returns the state
unchanged — no network request, no change to the filesystem, no change to
the counter, no URL added to the fetch trace.  Moreover (second and third
conjuncts) any fetch the download pass ever performs — whether it returns
bytes or aborts the run — uses exactly the URL
`downloadPrefix ++ entry.name`. -/
theorem downloadStep_uptodate_frame_and_url (env : Env) (list : fileListYaml)
    (rootPath : String) (st : DlState) (dl : fileEntry) (d0 : Bytes)
    (hread : FS.readBytes st.fs (joinPath rootPath dl.name) = some d0)
    (hhash : env.readHashOk (joinPath rootPath dl.name) = true)
    (hdig : env.digest d0 = dl.md5) :
    handleDownloadStep env list rootPath st dl = .ok st ∧
    (∀ (st₂ : DlState) (dl₂ : fileEntry) (st₂' : DlState),
      handleDownloadStep env list rootPath st₂ dl₂ = .ok st₂' →
      st₂'.fetched = st₂.fetched ∨
      st₂'.fetched = st₂.fetched ++ [list.downloadPrefix ++ dl₂.name]) ∧
    (∀ (st₃ : DlState) (dl₃ : fileEntry) (e : String),
      handleDownloadStep env list rootPath st₃ dl₃ = .error e →
      env.fetch (list.downloadPrefix ++ dl₃.name) = .error e) := by
  refine ⟨?_, ?_, ?_⟩
  · exact handleDownloadStep_of_check_false env list rootPath st dl
      (needDownloadCheck_uptodate env st.fs _ dl d0 hread hhash hdig)
  · intro st₂ dl₂ st₂' h
    simp only [handleDownloadStep] at h
    split at h
    · cases h; exact Or.inl rfl
    · cases h; exact Or.inl rfl
    · split at h
      · exact Except.noConfusion h
      · split at h
        · split at h
          · cases h; exact Or.inr rfl
          · cases h; exact Or.inr rfl
        · cases h; exact Or.inr rfl
  · intro st₃ dl₃ e h
    simp only [handleDownloadStep] at h
    split at h
    · exact Except.noConfusion h
    · exact Except.noConfusion h
    · split at h
      · rename_i e' heq
        cases h
        exact heq
      · split at h
        · split at h
          · exact Except.noConfusion h
          · exact Except.noConfusion h
        · exact Except.noConfusion h

/-- Witness for C8: a local file whose digest matches leaves the step a
no-op, at a concrete input. -/
theorem downloadStep_uptodate_frame_and_url_witness :
    handleDownloadStep
        ⟨fun _ => "aa", fun _ => .ok [9], fun _ => true, fun _ => true,
         fun _ => true, true, fun _ => .error "unused", 0, "/home/u", "/tmp"⟩
        ⟨"1", [], "http://h/", [⟨"a", "aa", "", 0⟩]⟩ "/r"
        ⟨⟨[("/r/a", ⟨[1], 5⟩)]⟩, 0, []⟩ ⟨"a", "aa", "", 0⟩ =
      .ok ⟨⟨[("/r/a", ⟨[1], 5⟩)]⟩, 0, []⟩ ∧
    (∀ (st₂ : DlState) (dl₂ : fileEntry) (st₂' : DlState),
      handleDownloadStep
          ⟨fun _ => "aa", fun _ => .ok [9], fun _ => true, fun _ => true,
           fun _ => true, true, fun _ => .error "unused", 0, "/home/u", "/tmp"⟩
          ⟨"1", [], "http://h/", [⟨"a", "aa", "", 0⟩]⟩ "/r" st₂ dl₂ = .ok st₂' →
      st₂'.fetched = st₂.fetched ∨
      st₂'.fetched = st₂.fetched ++ ["http://h/" ++ dl₂.name]) ∧
    (∀ (st₃ : DlState) (dl₃ : fileEntry) (e : String),
      handleDownloadStep
          ⟨fun _ => "aa", fun _ => .ok [9], fun _ => true, fun _ => true,
           fun _ => true, true, fun _ => .error "unused", 0, "/home/u", "/tmp"⟩
          ⟨"1", [], "http://h/", [⟨"a", "aa", "", 0⟩]⟩ "/r" st₃ dl₃ = .error e →
      (⟨fun _ => "aa", fun _ => .ok [9], fun _ => true, fun _ => true,
        fun _ => true, true, fun _ => .error "unused", 0, "/home/u", "/tmp"⟩ : Env).fetch
        ("http://h/" ++ dl₃.name) = .error e) :=
  downloadStep_uptodate_frame_and_url
    ⟨fun _ => "aa", fun _ => .ok [9], fun _ => true, fun _ => true,
     fun _ => true, true, fun _ => .error "unused", 0, "/home/u", "/tmp"⟩
    ⟨"1", [], "http://h/", [⟨"a", "aa", "", 0⟩]⟩ "/r"
    ⟨⟨[("/r/a", ⟨[1], 5⟩)]⟩, 0, []⟩ ⟨"a", "aa", "", 0⟩ [1]
    (by rfl) (by rfl) (by rfl)

/-- Claim C9: a removal failure in the delete pass, and a local-hash read
failure in the download pass, each only skip that entry — the pass
continues with the remaining entries from an unchanged state — whereas a
single fetch failure for any downloads entry terminates the entire
download pass (`log.Fatal`) no matter what entries remain. -/
theorem errorHandling_skip_vs_fatal (env : Env) (list : fileListYaml)
    (rootPath : String)
    (stDel : FS × Nat) (del : fileEntry) (restDel : List fileEntry)
    (stHash : DlState) (dlHash : fileEntry) (restHash : List fileEntry)
    (stF : DlState) (dlF : fileEntry) (restF : List fileEntry) (e : String)
    (hdelEx : fileOrDirExists stDel.1 (joinPath rootPath del.name) = true)
    (hdelFail : env.removeOk (joinPath rootPath del.name) = false)
    (hhashEx : fileOrDirExists stHash.fs (joinPath rootPath dlHash.name) = true)
    (hhashFail : env.readHashOk (joinPath rootPath dlHash.name) = false)
    (hneedF : needDownloadCheck env stF.fs (joinPath rootPath dlF.name) dlF = .ok true)
    (hfetchF : env.fetch (list.downloadPrefix ++ dlF.name) = .error e) :
    deleteLoop env rootPath stDel (del :: restDel) =
      deleteLoop env rootPath stDel restDel ∧
    downloadLoop env list rootPath stHash (dlHash :: restHash) =
      downloadLoop env list rootPath stHash restHash ∧
    downloadLoop env list rootPath stF (dlF :: restF) = .error e := by
  refine ⟨?_, ?_, ?_⟩
  · have hstep : handleDeleteStep env rootPath stDel del = stDel := by
      simp [handleDeleteStep, hdelEx, hdelFail]
    simp only [deleteLoop, hstep]
  · have hstat : ∃ node, FS.stat stHash.fs (joinPath rootPath dlHash.name) = some node := by
      unfold fileOrDirExists at hhashEx
      rcases h' : FS.stat stHash.fs (joinPath rootPath dlHash.name) with _ | node
      · rw [h'] at hhashEx; simp at hhashEx
      · exact ⟨node, rfl⟩
    rcases hstat with ⟨node, hstat⟩
    have hcheck : needDownloadCheck env stHash.fs (joinPath rootPath dlHash.name) dlHash =
        .error ("read " ++ joinPath rootPath dlHash.name ++ ": input/output error") := by
      simp [needDownloadCheck, md5OfFile, FS.readBytes, fileOrDirExists, hstat, hhashFail]
    have hstep : handleDownloadStep env list rootPath stHash dlHash = .ok stHash := by
      simp only [handleDownloadStep, hcheck]
    simp only [downloadLoop, hstep]
  · have hstep : handleDownloadStep env list rootPath stF dlF = .error e := by
      simp only [handleDownloadStep, hneedF, hfetchF]
    simp only [downloadLoop, hstep]

/-- Witness for C9: concrete failing delete, failing local-hash read, and
fatal fetch failure. -/
theorem errorHandling_skip_vs_fatal_witness :
    deleteLoop
        ⟨fun _ => "aa", fun _ => .error "boom", fun _ => true, fun _ => false,
         fun _ => false, true, fun _ => .error "unused", 0, "/home/u", "/tmp"⟩
        "/r" (⟨[("/r/x", ⟨[], 0⟩)]⟩, 0) [⟨"x", "", "", 0⟩] =
      deleteLoop
        ⟨fun _ => "aa", fun _ => .error "boom", fun _ => true, fun _ => false,
         fun _ => false, true, fun _ => .error "unused", 0, "/home/u", "/tmp"⟩
        "/r" (⟨[("/r/x", ⟨[], 0⟩)]⟩, 0) [] ∧
    downloadLoop
        ⟨fun _ => "aa", fun _ => .error "boom", fun _ => true, fun _ => false,
         fun _ => false, true, fun _ => .error "unused", 0, "/home/u", "/tmp"⟩
        ⟨"1", [], "http://h/", []⟩ "/r" ⟨⟨[("/r/y", ⟨[2], 0⟩)]⟩, 0, []⟩
        [⟨"y", "aa", "", 0⟩] =
      downloadLoop
        ⟨fun _ => "aa", fun _ => .error "boom", fun _ => true, fun _ => false,
         fun _ => false, true, fun _ => .error "unused", 0, "/home/u", "/tmp"⟩
        ⟨"1", [], "http://h/", []⟩ "/r" ⟨⟨[("/r/y", ⟨[2], 0⟩)]⟩, 0, []⟩ [] ∧
    downloadLoop
        ⟨fun _ => "aa", fun _ => .error "boom", fun _ => true, fun _ => false,
         fun _ => false, true, fun _ => .error "unused", 0, "/home/u", "/tmp"⟩
        ⟨"1", [], "http://h/", []⟩ "/r" ⟨⟨[]⟩, 0, []⟩
        [⟨"z", "aa", "", 0⟩, ⟨"w", "aa", "", 0⟩] = .error "boom" :=
  errorHandling_skip_vs_fatal
    ⟨fun _ => "aa", fun _ => .error "boom", fun _ => true, fun _ => false,
     fun _ => false, true, fun _ => .error "unused", 0, "/home/u", "/tmp"⟩
    ⟨"1", [], "http://h/", []⟩ "/r"
    (⟨[("/r/x", ⟨[], 0⟩)]⟩, 0) ⟨"x", "", "", 0⟩ []
    ⟨⟨[("/r/y", ⟨[2], 0⟩)]⟩, 0, []⟩ ⟨"y", "aa", "", 0⟩ []
    ⟨⟨[]⟩, 0, []⟩ ⟨"z", "aa", "", 0⟩ [⟨"w", "aa", "", 0⟩] "boom"
    (by rfl) (by rfl) (by rfl) (by rfl) (by rfl) (by rfl)

/-- Claim C10: `DownloadFileList` ignores its explicit parameters
`clientName` and `expansion` entirely; with the parsed global `args` held
fixed, any two parameter values produce identical behavior (cache name,
cache path, manifest URL and result all derive from `args.client` and
`args.expansion` alone). -/
theorem downloadFileList_ignores_parameters (env : Env) (fs : FS)
    (c₁ e₁ c₂ e₂ : String) (args : Args) :
    DownloadFileList env fs c₁ e₁ args = DownloadFileList env fs c₂ e₂ args :=
  rfl

end FvPatcher
